import Mathlib

/-!
# Verification of the stream-cdc core against its specification

Shallow embedding of the stream-cdc pipeline (a MySQL-binlog to SQS
change-data-capture worker) together with proofs about the embedded
operations.  The embedding follows the Python sources:

* `stream_cdc/processing/coordinator.py` (flush policy, checkpoint
  manager, coordinator step and flush),
* `stream_cdc/streams/sqs.py` (batching and batch-result handling),
* `stream_cdc/state/dynamodb.py` (checkpoint store),
* `stream_cdc/datasources/mysql.py` (binlog listening and connect retry).

Machine integers do not overflow in any of the modelled code paths, so
Python integers are rendered as Nat / Int; wall-clock instants and
durations are rendered as rationals; fallible operations return Except.
-/

namespace StreamCdc

/-! ## Error kinds (stream_cdc/utils/exceptions.py)

Only the kind of an exception matters to the modelled control flow, plus
the message text that the handlers build. -/

/-- A stream-kind error (class StreamError). -/
structure StreamError where
  msg : String
  deriving Repr, DecidableEq

/-- A processing-kind error (class ProcessingError). -/
structure ProcessingError where
  msg : String
  deriving Repr, DecidableEq

/-- A data-source-kind error (class DataSourceError). -/
structure DataSourceError where
  msg : String
  deriving Repr, DecidableEq

/-- Any Python exception escaping a modelled call: the AttributeError of
iterating a string, a boto3 ClientError, and so on.  Only the message is
kept. -/
structure PyError where
  msg : String
  deriving Repr, DecidableEq

/-! ## Flush policy (coordinator.py, class BatchSizeAndTimePolicy) -/

/-- The state of a constructed BatchSizeAndTimePolicy: the two
constructor parameters.  batch_size is a Python int, flush_interval a
Python float rendered as a rational. -/
structure BatchSizeAndTimePolicy where
  batch_size : Int
  flush_interval : Rat
  deriving Repr, DecidableEq

/-- BatchSizeAndTimePolicy.__init__: raises ValueError (modelled as a
PyError) unless batch_size > 0 and flush_interval > 0. -/
def mkBatchSizeAndTimePolicy (batch_size : Int) (flush_interval : Rat) :
    Except PyError BatchSizeAndTimePolicy :=
  if batch_size ≤ 0 then .error ⟨"Batch size must be positive"⟩
  else if flush_interval ≤ 0 then .error ⟨"Flush interval must be positive"⟩
  else .ok ⟨batch_size, flush_interval⟩

/-- BatchSizeAndTimePolicy.should_flush.  The Python reads the clock via
time.time(); the instant is passed here as the argument now. -/
def should_flush (p : BatchSizeAndTimePolicy) (buffer : List α)
    (last_flush_time now : Rat) : Bool :=
  if buffer.isEmpty then false
  else
    let batch_size_reached := decide (p.batch_size ≤ (buffer.length : Int))
    let time_interval_elapsed := decide (p.flush_interval ≤ now - last_flush_time)
    batch_size_reached || time_interval_elapsed

/-- The flush predicate exactly as the specification words it (section
4.3): flush iff the buffer is non-empty and its length reached BatchSize
or FlushInterval elapsed since the last flush.  Stated over the buffer
length n; used only to compare with should_flush. -/
def shouldFlushSpec (B : Int) (I : Rat) (n : Nat) (t₀ now : Rat) : Prop :=
  0 < n ∧ ((B ≤ (n : Int)) ∨ (I ≤ now - t₀))

instance (B : Int) (I : Rat) (n : Nat) (t₀ now : Rat) :
    Decidable (shouldFlushSpec B I n t₀ now) := by
  unfold shouldFlushSpec; infer_instance

/-! ## SQS batching (streams/sqs.py, class SQS)

The batching logic of SQS.send never inspects message contents, only the
serialized entry sizes computed by _calculate_entry_size.  An entry is
therefore rendered as an identifier plus its byte size.  For each input
message the environment supplies the outcome of _prepare_message (None
when preparation failed) and, for the branch taken when the prepared
entry alone exceeds the request limit, the outcome of
_create_oversized_message_reference. -/

/-- SQS has a hard limit of 10 messages per batch. -/
def SQS_MAX_BATCH_SIZE : Nat := 10

/-- SQS batch request size limit in bytes (slightly below the actual
262144 limit, as in the source). -/
def SQS_BATCH_REQUEST_SIZE_LIMIT : Nat := 262000

/-- Reduced effective per-message size to account for metadata overhead. -/
def SQS_EFFECTIVE_SIZE_LIMIT : Nat := 245760

/-- One SQS batch entry as built by _prepare_message or
_create_oversized_message_reference: its Id and the byte size that
_calculate_entry_size reports for it. -/
structure SqsEntry where
  eid : String
  size : Nat
  deriving Repr, DecidableEq

/-- What SQS.send gets to see of one input message: the result of
_prepare_message (none when it returned None), and the result of
_create_oversized_message_reference for the oversized-entry branch
(none when that call returned None). -/
structure SqsPrepared where
  prepared : Option SqsEntry
  oversizedRef : Option SqsEntry
  deriving Repr, DecidableEq

/-- The loop of SQS.send: walk the messages in order, maintaining the
current batch and its accumulated byte size; each completed batch is a
_send_batch_to_sqs call, listed in call order. -/
def sendLoop : List SqsPrepared → List SqsEntry → Nat → List (List SqsEntry)
  | [], batch_entries, _ =>
    -- send any remaining entries in the batch
    if batch_entries.isEmpty then [] else [batch_entries]
  | m :: ms, batch_entries, current_batch_size =>
    match m.prepared with
    | none => sendLoop ms batch_entries current_batch_size
    | some entry =>
      -- if adding this entry would exceed either limit, send current batch
      let needFlush : Bool :=
        decide (SQS_BATCH_REQUEST_SIZE_LIMIT < current_batch_size + entry.size)
          || decide (SQS_MAX_BATCH_SIZE ≤ batch_entries.length)
      let emitted : List (List SqsEntry) :=
        if needFlush && !batch_entries.isEmpty then [batch_entries] else []
      let batch' : List SqsEntry :=
        if needFlush && !batch_entries.isEmpty then [] else batch_entries
      let size' : Nat :=
        if needFlush && !batch_entries.isEmpty then 0 else current_batch_size
      if SQS_BATCH_REQUEST_SIZE_LIMIT < entry.size then
        -- entry alone exceeds the request limit: send a reference alone
        emitted ++
          (match m.oversizedRef with
           | some r => [[r]]
           | none => []) ++ sendLoop ms batch' size'
      else
        emitted ++ sendLoop ms (batch' ++ [entry]) (size' + entry.size)

/-- SQS.send on a list of messages: the sequence of batches handed to
_send_batch_to_sqs, in order. -/
def send (messages : List SqsPrepared) : List (List SqsEntry) :=
  sendLoop messages [] 0

/-- The entries that the loop body of SQS.send transmits for one input
message: nothing when _prepare_message failed, the oversized reference
(when one could be built) when the prepared entry exceeds the request
limit, and the prepared entry itself otherwise. -/
def transmittedEntries (m : SqsPrepared) : List SqsEntry :=
  match m.prepared with
  | none => []
  | some entry =>
    if SQS_BATCH_REQUEST_SIZE_LIMIT < entry.size then
      match m.oversizedRef with
      | some r => [r]
      | none => []
    else [entry]

/-! ## SQS batch-result handling (streams/sqs.py, SQS._send_batch_to_sqs)

The downstream send_message_batch response reports per-entry failures.
The handling of that response decides whether _send_batch_to_sqs raises
a stream-kind error. -/

/-- One element of the response Failed list, with the fields the handler
reads: Id, the optional SenderFault flag and the optional Code. -/
structure SqsFailedEntry where
  fid : String
  senderFault : Option Bool
  code : Option String
  deriving Repr, DecidableEq

/-- The send_message_batch response: the Failed list and the number of
Successful entries. -/
structure SqsBatchResponse where
  failed : List SqsFailedEntry
  successfulCount : Nat
  deriving Repr, DecidableEq

/-- The retriable reason codes recognised by _send_batch_to_sqs. -/
def retriable_errors : List String :=
  ["InternalError", "ServiceUnavailable", "ThrottlingException"]

/-- The result handling of SQS._send_batch_to_sqs, given the entries of
the request and the response of the downstream queue (the network call
itself is assumed to return; the BatchRequestTooLong split path is not
exercised by a returned response).  Returns .ok when the call returns
normally and .error when it raises a stream-kind error. -/
def sendBatchResult (entries : List SqsEntry) (resp : SqsBatchResponse) :
    Except StreamError Unit :=
  if entries.isEmpty then .ok ()
  else if !resp.failed.isEmpty then
    let failed_count := resp.failed.length
    let failed_ids := resp.failed.map (·.fid)
    -- should_retry only affects logging, never the raise decision
    let _should_retry := resp.failed.any fun f =>
      (f.senderFault.getD true) = false
        || (match f.code with
            | some c => retriable_errors.contains c
            | none => false)
    let error_msg :=
      "Failed to send " ++ toString failed_count ++ " messages to SQS. IDs: "
        ++ toString failed_ids
    if failed_count = entries.length then .error ⟨error_msg⟩ else .ok ()
  else .ok ()

/-! ## MySQL binlog listening (datasources/mysql.py, MySQLDataSource)

MySQLDataSource.listen iterates binlog events.  The events it
distinguishes are GtidEvent (transaction-start marker carrying the new
transaction token), QueryEvent (routed to _process_query_event, which
decodes the query text and otherwise changes nothing), events without
rows, and row events.  The mutable fields it touches are
current_position and transaction_complete. -/

/-- The row-change kinds reported by _get_event_type. -/
inductive RowEventType where
  | insert
  | update
  | delete
  deriving Repr, DecidableEq

/-- A binlog event as seen by MySQLDataSource.listen. -/
inductive BinlogEvent (Row : Type) where
  /-- GtidEvent: carries the gtid of the newly started transaction. -/
  | gtid (g : String)
  /-- QueryEvent: carries the query text (commit markers arrive here). -/
  | query (q : String)
  /-- A row event with schema, table and its rows list. -/
  | rows (t : RowEventType) (schema table : String) (rs : List Row)
  /-- Any other event (no rows attribute). -/
  | other
  deriving Repr, DecidableEq

/-- The datasource fields listen mutates.  current_position is the Python
attribute of the same name, with the empty string standing for None (both
are falsy where the source tests them). -/
structure MySQLSourceState where
  current_position : String
  transaction_complete : Bool
  deriving Repr, DecidableEq

/-- The event dictionary built by _create_event_dict. -/
structure EventDict (Row : Type) where
  event_type : RowEventType
  gtid : String
  database : String
  table : String
  content : Row
  deriving Repr, DecidableEq

/-- MySQLDataSource._format_row_events: yields one event dict per row,
or nothing (after a warning) when no GTID context is set. -/
def format_row_events (st : MySQLSourceState) (t : RowEventType)
    (schema table : String) (rs : List Row) : List (EventDict Row) :=
  if st.current_position = "" then []
  else rs.map fun r => ⟨t, st.current_position, schema, table, r⟩

/-- One iteration of the loop in MySQLDataSource.listen: the state update
and the dictionaries yielded for one binlog event. -/
def listenStep (st : MySQLSourceState) :
    BinlogEvent Row → MySQLSourceState × List (EventDict Row)
  | .gtid g => ({ current_position := g, transaction_complete := false }, [])
  | .query _ => (st, [])
  | .rows t schema table rs =>
    if rs.isEmpty then (st, [])
    else (st, format_row_events st t schema table rs)
  | .other => (st, [])

/-- MySQLDataSource.listen over a finite run of binlog events: the final
datasource state and all yielded event dictionaries, in order. -/
def listenRun (st : MySQLSourceState) :
    List (BinlogEvent Row) → MySQLSourceState × List (EventDict Row)
  | [] => (st, [])
  | ev :: evs =>
    let (st', out) := listenStep st ev
    let (st'', rest) := listenRun st' evs
    (st'', out ++ rest)

/-- MySQLDataSource.get_current_position: the current position, or the
empty string when none is set. -/
def get_current_position (st : MySQLSourceState) : String :=
  st.current_position

/-- The datasource state right after MySQLDataSource.connect: no
position observed yet. -/
def freshMySQLSourceState : MySQLSourceState :=
  { current_position := "", transaction_complete := false }

/-! ## MySQL connect retry (datasources/mysql.py, MySQLDataSource.connect)

connect loops up to max_retries = 5 attempts.  An attempt either
succeeds, fails with a server_uuid/server_id conflict, or fails
otherwise.  On a conflict with retries left it picks a fresh random
server id and sleeps (backoff_factor ** retry_count) + uniform(0.1, 1.0)
seconds.  The outcome of each attempt and the jitter drawn before each
retry are supplied by the environment as functions of the attempt
index. -/

/-- Outcome of one connect attempt (validation plus client creation). -/
inductive ConnectOutcome where
  | ok
  | idConflict
  | fail (msg : String)
  deriving Repr, DecidableEq

/-- The observable result of MySQLDataSource.connect: how many attempts
ran, the sleeps performed between attempts (in order), and whether the
call returned or raised a data-source-kind error. -/
structure ConnectResult where
  attempts : Nat
  sleeps : List Rat
  result : Except DataSourceError Unit
  deriving Repr

/-- The while loop of MySQLDataSource.connect.  fuel bounds the loop
(while retry_count < max_retries); retry_count is the Python variable of
the same name; acc collects the sleeps in reverse. -/
def connectLoop (outcome : Nat → ConnectOutcome) (jitter : Nat → Rat) :
    Nat → Nat → List Rat → ConnectResult
  | 0, retry_count, acc =>
    (⟨retry_count, acc.reverse,
      .error ⟨"Failed to connect after 5 attempts with different server IDs"⟩⟩)
  | fuel + 1, retry_count, acc =>
    match outcome retry_count with
    | .ok => ⟨retry_count + 1, acc.reverse, .ok ()⟩
    | .idConflict =>
      if retry_count < 4 then
        -- retry_count < max_retries - 1: new random server_id, backoff, retry
        connectLoop outcome jitter fuel (retry_count + 1)
          (((2 : Rat) ^ (retry_count + 1) + jitter (retry_count + 1)) :: acc)
      else
        ⟨retry_count + 1, acc.reverse,
          .error ⟨"Failed to connect to MySQL: server_uuid/server_id in use"⟩⟩
    | .fail m =>
      ⟨retry_count + 1, acc.reverse, .error ⟨"Failed to connect to MySQL: " ++ m⟩⟩

/-- MySQLDataSource.connect (max_retries = 5, backoff_factor = 2). -/
def connect (outcome : Nat → ConnectOutcome) (jitter : Nat → Rat) : ConnectResult :=
  connectLoop outcome jitter 5 0 []

/-! ## DynamoDB checkpoint store (state/dynamodb.py, class Dynamodb) -/

/-- A Python value flowing into Dynamodb.store as its state_position
argument.  The annotation says Dict[str, str], but the coordinator
actually passes the raw position string, so both shapes must be
representable. -/
inductive PyVal where
  | str (s : String)
  | dict (kvs : List (String × String))
  deriving Repr, DecidableEq

/-- Calling .items() on a Python value: succeeds on a dict, raises
AttributeError on a str. -/
def pyItems : PyVal → Except PyError (List (String × String))
  | .str _ => .error ⟨"AttributeError: str object has no attribute items"⟩
  | .dict kvs => .ok kvs

/-- Dynamodb.store.  The whole body runs inside try/except Exception:
the AttributeError from iterating state_position.items() on a string is
caught and turned into False, and a put_item failure likewise; a
successful put returns True.  putOk says whether the put_item network
call would succeed.  The Except layer witnesses that no exception
escapes the call. -/
def Dynamodb.store (putOk : Bool) (state_position : PyVal) :
    Except PyError Bool :=
  match pyItems state_position with
  | .error _ => .ok false
  | .ok _ => if putOk then .ok true else .ok false

/-- Outcome of the describe_table call in Dynamodb._ensure_table_exists. -/
inductive DescribeTableResult where
  | found
  | notFound
  | otherError (code : String)
  deriving Repr, DecidableEq

/-- What Dynamodb._ensure_table_exists did: whether it returned or
re-raised the client error, and whether it called create_table. -/
structure EnsureTableResult where
  result : Except PyError Unit
  createCalled : Bool
  deriving Repr

/-- Dynamodb._ensure_table_exists: describe_table; on
ResourceNotFoundException create the table and wait for it; re-raise any
other client error. -/
def ensure_table_exists (r : DescribeTableResult) : EnsureTableResult :=
  match r with
  | .found => ⟨.ok (), false⟩
  | .notFound => ⟨.ok (), true⟩
  | .otherError code => ⟨.error ⟨"Error checking table: " ++ code⟩, false⟩

/-! ## Checkpoint manager (coordinator.py, class StateCheckpointManager)

save_state is modelled parametrically in the state manager store call
(store_fn), so that it can be instantiated both with an abstract store
and with the DynamoDB store above.  The datasource accessors
get_current_position / get_source_type / get_source_id are passed as
already-read values. -/

/-- The outcome of one StateCheckpointManager.save_state call: the new
_last_saved_position, the returned bool, and the positions passed to
state_manager.store during the call (empty or a singleton). -/
structure SaveStateResult where
  last_saved_position : String
  saved : Bool
  written : List String
  deriving Repr, DecidableEq

/-- StateCheckpointManager.save_state.  position is what
datasource.get_current_position() returned (always a str here, so the
isinstance check passes exactly when the string is non-empty);
store_fn models state_manager.store and may raise; any exception is
caught and turned into False. -/
def save_state (store_fn : String → Except PyError Bool)
    (datasource_type datasource_id : String)
    (position : String) (last_saved_position : String) : SaveStateResult :=
  if position = "" then ⟨last_saved_position, false, []⟩
  else if datasource_type = "" ∨ datasource_id = "" then
    ⟨last_saved_position, false, []⟩
  else if last_saved_position = position then
    -- position already saved, skipping duplicate save
    ⟨last_saved_position, true, []⟩
  else
    match store_fn position with
    | .ok true => ⟨position, true, [position]⟩
    | .ok false => ⟨last_saved_position, false, [position]⟩
    | .error _ => ⟨last_saved_position, false, [position]⟩

/-! ## Coordinator (coordinator.py, class Coordinator)

The coordinator is single-threaded: the worker drives process_next in a
loop on one thread, so the datasource position can only move when the
coordinator itself pulls events.  Raw events are rendered with the
position the datasource holds once the event has been yielded (for the
MySQL source, the gtid of the enclosing transaction); the event
processor is a parameter proc. -/

/-- A raw event pulled from the datasource iterator, together with the
datasource current position after it has been yielded. -/
structure RawEvent (α : Type) where
  positionAfter : String
  payload : α
  deriving Repr, DecidableEq

/-- The mutable coordinator state (plus the piece of
StateCheckpointManager state it owns). -/
structure CoordinatorState (α : Type) where
  /-- datasource.get_current_position() at this instant. -/
  dsPosition : String
  buffer : List α
  last_flush_time : Rat
  is_started : Bool
  is_stopped : Bool
  /-- StateCheckpointManager._last_saved_position. -/
  last_saved_position : String
  deriving Repr, DecidableEq

/-- Result of Coordinator._flush_to_stream: the new state, the positions
written to the checkpoint store during the flush, and the
processing-kind error when the flush raised. -/
structure FlushResult (α : Type) where
  state : CoordinatorState α
  written : List String
  err : Option ProcessingError
  deriving Repr, DecidableEq

/-- Coordinator._flush_to_stream.  send_fn models stream.send (raising a
stream-kind error on failure); store_fn models state_manager.store; now
is the time.time() reading used for last_flush_time. -/
def flush_to_stream (send_fn : List α → Except StreamError Unit)
    (store_fn : String → Except PyError Bool)
    (datasource_type datasource_id : String) (now : Rat)
    (st : CoordinatorState α) : FlushResult α :=
  if st.buffer.isEmpty then ⟨st, [], none⟩
  else
    let messages := st.buffer   -- buffer.copy()
    match send_fn messages with
    | .error e =>
      ⟨st, [], some ⟨"Failed to flush messages: " ++ e.msg⟩⟩
    | .ok _ =>
      let r := save_state store_fn datasource_type datasource_id
        st.dsPosition st.last_saved_position
      if r.saved then
        let cleared : CoordinatorState α :=
          { st with
              buffer := []
              last_flush_time := now
              last_saved_position := r.last_saved_position }
        ⟨cleared, r.written, none⟩
      else
        -- state not saved, keeping messages in buffer
        ⟨{ st with last_saved_position := r.last_saved_position }, r.written, none⟩

/-- Result of Coordinator.process_next: the new state, the positions
written to the checkpoint store, the return value (events_processed > 0)
and the processing-kind error when the call raised. -/
structure StepResult (α : Type) where
  state : CoordinatorState α
  written : List String
  processedSome : Bool
  err : Option ProcessingError
  deriving Repr, DecidableEq

/-- The datasource position after the events of one process_next call
have been pulled: the position attached to the last pulled event, or the
previous position when no event arrived. -/
def positionAfterPull (st : CoordinatorState α) (pulled : List (RawEvent β)) : String :=
  (pulled.getLast?).elim st.dsPosition (·.positionAfter)

/-- Coordinator.process_next.  policy is the flush policy (process_next
reads policy.batch_size directly); proc models event_processor.process;
incoming is what the datasource iterator yields during this call, of
which at most batch_size events are pulled. -/
def process_next (policy : BatchSizeAndTimePolicy)
    (proc : β → α)
    (send_fn : List α → Except StreamError Unit)
    (store_fn : String → Except PyError Bool)
    (datasource_type datasource_id : String) (now : Rat)
    (incoming : List (RawEvent β))
    (st : CoordinatorState α) : StepResult α :=
  if ¬st.is_started ∨ st.is_stopped then ⟨st, [], false, none⟩
  else
    let pulled := incoming.take policy.batch_size.toNat
    let current_batch := pulled.map fun e => proc e.payload
    if current_batch.isEmpty then ⟨st, [], false, none⟩
    else
      let st1 : CoordinatorState α :=
        { st with
            dsPosition := positionAfterPull st pulled
            buffer := st.buffer ++ current_batch }
      if should_flush policy st1.buffer st1.last_flush_time now then
        let fr := flush_to_stream send_fn store_fn datasource_type
          datasource_id now st1
        -- a ProcessingError raised by the flush is caught by the
        -- surrounding try and re-raised with the step message
        ⟨fr.state, fr.written, true,
          fr.err.map fun e => ⟨"Error processing events: " ++ e.msg⟩⟩
      else ⟨st1, [], true, none⟩

/-- A finite run of the coordinator: one process_next call per element
of the script, each with its own clock reading and iterator yield. -/
def runCoordinator (policy : BatchSizeAndTimePolicy)
    (proc : β → α)
    (send_fn : List α → Except StreamError Unit)
    (store_fn : String → Except PyError Bool)
    (datasource_type datasource_id : String) :
    List (Rat × List (RawEvent β)) → CoordinatorState α → CoordinatorState α
  | [], st => st
  | (now, incoming) :: rest, st =>
    runCoordinator policy proc send_fn store_fn datasource_type datasource_id
      rest (process_next policy proc send_fn store_fn datasource_type
        datasource_id now incoming st).state

/-- The coordinator state right after Coordinator.start succeeded. -/
def startedState (startPos : String) (t : Rat) : CoordinatorState α :=
  { dsPosition := startPos, buffer := [], last_flush_time := t,
    is_started := true, is_stopped := false, last_saved_position := "" }

/-! ## Theorems -/

/-- C7: for every buffer and every last-flush time, should_flush returns
true if and only if the buffer is non-empty and its length is at least
BatchSize or the time since the last flush is at least FlushInterval;
in particular an empty buffer is never flushed.  Stated for any policy
produced by the constructor, whose preconditions are BatchSize ≥ 1 and
FlushInterval > 0. -/
theorem claimC7_flush_predicate {α : Type} (b : Int) (i : Rat)
    (p : BatchSizeAndTimePolicy) (hp : mkBatchSizeAndTimePolicy b i = .ok p)
    (buffer : List α) (t₀ now : Rat) :
    (should_flush p buffer t₀ now = true ↔
      shouldFlushSpec p.batch_size p.flush_interval buffer.length t₀ now) ∧
    should_flush p ([] : List α) t₀ now = false := by
  constructor
  · cases buffer with
    | nil => simp [should_flush, shouldFlushSpec]
    | cons x xs => simp [should_flush, shouldFlushSpec, Nat.succ_pos]
  · simp [should_flush]

/-- Witness for claimC7_flush_predicate: a two-element buffer with
BatchSize 2 flushes, the empty buffer does not. -/
theorem claimC7_flush_predicate_witness :
    (should_flush ⟨2, 1⟩ ([0, 1] : List Nat) 0 0 = true ↔
      shouldFlushSpec 2 1 2 0 0) ∧
    should_flush ⟨2, 1⟩ ([] : List Nat) 0 0 = false :=
  claimC7_flush_predicate 2 1 ⟨2, 1⟩ rfl [0, 1] 0 0

/-- C8 counterexample: when describe_table reports the checkpoint table
absent (ResourceNotFoundException), construction does not fail — the
call returns normally — and the core does call create_table, contrary to
the claim that absence is a configuration-kind error and the core never
auto-provisions. -/
theorem claimC8_counterexample :
    (ensure_table_exists .notFound).result = .ok () ∧
    (ensure_table_exists .notFound).createCalled = true :=
  ⟨rfl, rfl⟩

/-- C8 amended: if the checkpoint table is absent at startup, the store
creates it itself (auto-provisions) and construction succeeds; when the
table exists nothing is created; any other describe_table error is
re-raised as the underlying client error, not a configuration-kind
error. -/
theorem claimC8_amended :
    (ensure_table_exists .found).result = .ok () ∧
    (ensure_table_exists .found).createCalled = false ∧
    (ensure_table_exists .notFound).result = .ok () ∧
    (ensure_table_exists .notFound).createCalled = true ∧
    ∀ c, (ensure_table_exists (.otherError c)).result =
        .error ⟨"Error checking table: " ++ c⟩ ∧
      (ensure_table_exists (.otherError c)).createCalled = false :=
  ⟨rfl, rfl, rfl, rfl, fun _ => ⟨rfl, rfl⟩⟩

/-- C2 failing input: a batch of two entries of which the downstream
queue definitively rejects exactly one (a sender-fault, non-retriable
InvalidMessageContents failure).  _send_batch_to_sqs returns normally —
it raises only when the failed count equals the whole batch — so send
completes without a stream-kind error although a message was rejected,
contrary to the claim and to the documented contract. -/
theorem claimC2_one_failed_message_no_raise :
    sendBatchResult [⟨"m1", 120⟩, ⟨"m2", 130⟩]
        ⟨[⟨"m1", some true, some "InvalidMessageContents"⟩], 1⟩ = .ok () ∧
    (([⟨"m1", some true, some "InvalidMessageContents"⟩] :
        List SqsFailedEntry)).length ≠ 0 :=
  ⟨rfl, by simp⟩

/-- C4 failing input: a session consisting of a single transaction-start
marker (GtidEvent) and no commit marker.  current_position is advanced
to the new token immediately, so it names a transaction that has not
committed, contrary to the claim that the position advances only on the
commit marker. -/
theorem claimC4_position_advances_before_commit :
    get_current_position
        (listenRun freshMySQLSourceState
          ([.gtid "3E11FA47-71CA-11E1-9E33-C80AA9429562:23"] :
            List (BinlogEvent Unit))).1 =
      "3E11FA47-71CA-11E1-9E33-C80AA9429562:23" ∧
    (listenRun freshMySQLSourceState
        ([.gtid "3E11FA47-71CA-11E1-9E33-C80AA9429562:23"] :
          List (BinlogEvent Unit))).2 = [] :=
  ⟨rfl, rfl⟩

/-- C10 counterexample: with every attempt failing on a server-id
conflict and the jitter draw at its minimum 0.1, the sleeps are
2.1, 4.1, 8.1 and 16.1 seconds: the delays start around 2 seconds (not
0.1) and exceed the claimed 5-second cap, so the backoff is not capped
at 5 seconds. -/
theorem claimC10_counterexample :
    (connect (fun _ => .idConflict) (fun _ => (1 : Rat)/10)).sleeps =
      [21/10, 41/10, 81/10, 161/10] ∧
    ¬ ∀ s ∈ (connect (fun _ => .idConflict) (fun _ => (1 : Rat)/10)).sleeps,
        s ≤ 5 := by
  have hs : (connect (fun _ => .idConflict) (fun _ => (1 : Rat)/10)).sleeps =
      [21/10, 41/10, 81/10, 161/10] := by
    simp [connect, connectLoop]
    norm_num
  refine ⟨hs, fun h => ?_⟩
  have := h ((81 : Rat)/10) (by rw [hs]; simp)
  norm_num at this

/-- C10 amended: on server-id-conflict failures connect retries with a
fresh random identifier for at most 5 attempts in total, sleeping
2^k + jitter_k seconds before the k-th retry (k = 1..4, jitter drawn
from [0.1, 1.0]) — exponential with factor 2 but starting near 2 seconds
and with no 5-second cap; any other failure of the first attempt raises
a data-source-kind error with no retry and no sleep. -/
theorem claimC10_amended (o : Nat → ConnectOutcome) (j : Nat → Rat) :
    (connect o j).attempts ≤ 5 ∧
    (∃ t, t ≤ 4 ∧ (connect o j).sleeps =
      (List.range t).map fun k => (2 : Rat)^(k+1) + j (k+1)) ∧
    ∀ m, o 0 = .fail m →
      (connect o j).result = .error ⟨"Failed to connect to MySQL: " ++ m⟩ ∧
      (connect o j).sleeps = [] ∧ (connect o j).attempts = 1 := by
  have clause3 : ∀ m, o 0 = .fail m →
      (connect o j).result = .error ⟨"Failed to connect to MySQL: " ++ m⟩ ∧
      (connect o j).sleeps = [] ∧ (connect o j).attempts = 1 := by
    intro m hm
    refine ⟨?_, ?_, ?_⟩ <;> simp [connect, connectLoop, hm]
  have clause1 : (connect o j).attempts ≤ 5 := by
    cases h0 : o 0 with
    | fail m => simp [connect, connectLoop, h0]
    | ok => simp [connect, connectLoop, h0]
    | idConflict => cases h1 : o 1 with
      | fail m => simp [connect, connectLoop, h0, h1]
      | ok => simp [connect, connectLoop, h0, h1]
      | idConflict => cases h2 : o 2 with
        | fail m => simp [connect, connectLoop, h0, h1, h2]
        | ok => simp [connect, connectLoop, h0, h1, h2]
        | idConflict => cases h3 : o 3 with
          | fail m => simp [connect, connectLoop, h0, h1, h2, h3]
          | ok => simp [connect, connectLoop, h0, h1, h2, h3]
          | idConflict => cases h4 : o 4 with
            | fail m => simp [connect, connectLoop, h0, h1, h2, h3, h4]
            | ok => simp [connect, connectLoop, h0, h1, h2, h3, h4]
            | idConflict => simp [connect, connectLoop, h0, h1, h2, h3, h4]
  have clause2 : ∃ t, t ≤ 4 ∧ (connect o j).sleeps =
      (List.range t).map fun k => (2 : Rat)^(k+1) + j (k+1) := by
    cases h0 : o 0 with
    | fail m => exact ⟨0, by omega, by simp [connect, connectLoop, h0]⟩
    | ok => exact ⟨0, by omega, by simp [connect, connectLoop, h0]⟩
    | idConflict => cases h1 : o 1 with
      | fail m =>
        exact ⟨1, by omega,
          by simp [connect, connectLoop, h0, h1, List.range_succ]⟩
      | ok =>
        exact ⟨1, by omega,
          by simp [connect, connectLoop, h0, h1, List.range_succ]⟩
      | idConflict => cases h2 : o 2 with
        | fail m =>
          exact ⟨2, by omega,
            by simp [connect, connectLoop, h0, h1, h2, List.range_succ]⟩
        | ok =>
          exact ⟨2, by omega,
            by simp [connect, connectLoop, h0, h1, h2, List.range_succ]⟩
        | idConflict => cases h3 : o 3 with
          | fail m =>
            exact ⟨3, by omega,
              by simp [connect, connectLoop, h0, h1, h2, h3, List.range_succ]⟩
          | ok =>
            exact ⟨3, by omega,
              by simp [connect, connectLoop, h0, h1, h2, h3, List.range_succ]⟩
          | idConflict => cases h4 : o 4 with
            | fail m =>
              exact ⟨4, by omega,
                by simp [connect, connectLoop, h0, h1, h2, h3, h4,
                  List.range_succ]⟩
            | ok =>
              exact ⟨4, by omega,
                by simp [connect, connectLoop, h0, h1, h2, h3, h4,
                  List.range_succ]⟩
            | idConflict =>
              exact ⟨4, by omega,
                by simp [connect, connectLoop, h0, h1, h2, h3, h4,
                  List.range_succ]⟩
  exact ⟨clause1, clause2, clause3⟩

/-- Witness for claimC10_amended: a first attempt failing for a reason
other than a server-id conflict raises a data-source-kind error. -/
theorem claimC10_amended_witness :
    (connect (fun _ => ConnectOutcome.fail "Access denied")
        (fun _ => (1 : Rat)/2)).result =
      .error ⟨"Failed to connect to MySQL: Access denied"⟩ :=
  ((claimC10_amended (fun _ => ConnectOutcome.fail "Access denied")
    (fun _ => (1 : Rat)/2)).2.2 "Access denied" rfl).1

/-- Invariant of the SQS.send loop: provided every oversized-reference
entry respects the effective size limit (which
_create_oversized_message_reference enforces), every batch the loop
hands to _send_batch_to_sqs satisfies both batch bounds, as long as the
running batch satisfies them on entry. -/
theorem sendLoop_bounds (msgs : List SqsPrepared)
    (href : ∀ m ∈ msgs, ∀ r, m.oversizedRef = some r →
      r.size ≤ SQS_EFFECTIVE_SIZE_LIMIT) :
    ∀ batch csize, csize = (batch.map (·.size)).sum →
      batch.length ≤ SQS_MAX_BATCH_SIZE →
      csize ≤ SQS_BATCH_REQUEST_SIZE_LIMIT →
      ∀ b ∈ sendLoop msgs batch csize,
        b.length ≤ SQS_MAX_BATCH_SIZE ∧
        (b.map (·.size)).sum ≤ SQS_BATCH_REQUEST_SIZE_LIMIT := by
  induction msgs with
  | nil =>
    intro batch csize hcs hlen hsz b hb
    simp only [sendLoop] at hb
    split at hb
    · simp at hb
    · simp at hb
      subst hb
      exact ⟨hlen, hcs ▸ hsz⟩
  | cons m ms ih =>
    intro batch csize hcs hlen hsz b hb
    have hrefs : ∀ m' ∈ ms, ∀ r, m'.oversizedRef = some r →
        r.size ≤ SQS_EFFECTIVE_SIZE_LIMIT :=
      fun m' hm' => href m' (List.mem_cons_of_mem m hm')
    cases hm : m.prepared with
    | none =>
      simp only [sendLoop, hm] at hb
      exact ih hrefs batch csize hcs hlen hsz b hb
    | some entry =>
      have hrefm : ∀ r, m.oversizedRef = some r →
          r.size ≤ SQS_EFFECTIVE_SIZE_LIMIT :=
        href m (List.mem_cons_self m ms)
      have hrefBound : ∀ r, m.oversizedRef = some r →
          ([r].length ≤ SQS_MAX_BATCH_SIZE ∧
            ([r].map (·.size)).sum ≤ SQS_BATCH_REQUEST_SIZE_LIMIT) := by
        intro r hr
        have := hrefm r hr
        refine ⟨by simp [SQS_MAX_BATCH_SIZE], ?_⟩
        simp only [List.map_cons, List.map_nil, List.sum_cons, List.sum_nil]
        have h2 : SQS_EFFECTIVE_SIZE_LIMIT ≤ SQS_BATCH_REQUEST_SIZE_LIMIT := by
          simp [SQS_EFFECTIVE_SIZE_LIMIT, SQS_BATCH_REQUEST_SIZE_LIMIT]
        omega
      simp only [sendLoop, hm] at hb
      by_cases hc : ((decide (SQS_BATCH_REQUEST_SIZE_LIMIT <
            csize + entry.size) ||
          decide (SQS_MAX_BATCH_SIZE ≤ batch.length)) && !batch.isEmpty) = true
      · rw [if_pos hc, if_pos hc, if_pos hc] at hb
        by_cases hover : SQS_BATCH_REQUEST_SIZE_LIMIT < entry.size
        · rw [if_pos hover] at hb
          rcases List.mem_append.mp hb with hb1 | hb2
          · rcases List.mem_append.mp hb1 with hb3 | hb4
            · have : b = batch := by simpa using hb3
              subst this
              exact ⟨hlen, hcs ▸ hsz⟩
            · cases hr : m.oversizedRef with
              | none => rw [hr] at hb4; simp at hb4
              | some r =>
                rw [hr] at hb4
                have : b = [r] := by simpa using hb4
                subst this
                exact hrefBound r hr
          · exact ih hrefs [] 0 rfl (by simp [SQS_MAX_BATCH_SIZE])
              (by simp [SQS_BATCH_REQUEST_SIZE_LIMIT]) b hb2
        · rw [if_neg hover] at hb
          rcases List.mem_append.mp hb with hb1 | hb2
          · have : b = batch := by simpa using hb1
            subst this
            exact ⟨hlen, hcs ▸ hsz⟩
          · refine ih hrefs [entry] (0 + entry.size) (by simp)
              (by simp [SQS_MAX_BATCH_SIZE]) (by omega) b ?_
            simpa using hb2
      · rw [if_neg hc, if_neg hc, if_neg hc] at hb
        by_cases hemp : batch.isEmpty
        · -- empty running batch: the accumulated size is 0
          have hbe : batch = [] := List.isEmpty_iff.mp hemp
          subst hbe
          simp only [List.map_nil, List.sum_nil] at hcs
          subst hcs
          by_cases hover : SQS_BATCH_REQUEST_SIZE_LIMIT < entry.size
          · rw [if_pos hover] at hb
            rcases List.mem_append.mp hb with hb1 | hb2
            · cases hr : m.oversizedRef with
              | none => rw [hr] at hb1; simp at hb1
              | some r =>
                rw [hr] at hb1
                have : b = [r] := by simpa using hb1
                subst this
                exact hrefBound r hr
            · exact ih hrefs [] 0 rfl (by simp [SQS_MAX_BATCH_SIZE])
                (by simp [SQS_BATCH_REQUEST_SIZE_LIMIT]) b hb2
          · rw [if_neg hover] at hb
            refine ih hrefs [entry] (0 + entry.size) (by simp)
              (by simp [SQS_MAX_BATCH_SIZE]) (by omega) b ?_
            simpa using hb
        · -- non-empty running batch and no flush: both tests were passed
          have hnf : ¬ (SQS_BATCH_REQUEST_SIZE_LIMIT < csize + entry.size ∨
              SQS_MAX_BATCH_SIZE ≤ batch.length) := by
            intro hd
            apply hc
            rcases hd with hd | hd <;> simp [hd, hemp]
          push_neg at hnf
          have hover : ¬ SQS_BATCH_REQUEST_SIZE_LIMIT < entry.size := by
            omega
          rw [if_neg hover] at hb
          refine ih hrefs (batch ++ [entry]) (csize + entry.size) ?_ ?_ ?_ b hb
          · simp [hcs]
          · simp only [List.length_append, List.length_cons, List.length_nil]
            omega
          · omega

/-- The SQS.send loop walks the input in order: concatenating the
batches it issues yields the pending batch followed by exactly the
entries each input message transmits, in input order. -/
theorem sendLoop_flatten (msgs : List SqsPrepared) :
    ∀ batch csize, (sendLoop msgs batch csize).flatten =
      batch ++ msgs.flatMap transmittedEntries := by
  induction msgs with
  | nil =>
    intro batch csize
    simp only [sendLoop]
    split
    · next h => simp [List.isEmpty_iff.mp h]
    · simp
  | cons m ms ih =>
    intro batch csize
    cases hm : m.prepared with
    | none =>
      simp only [sendLoop, hm]
      rw [ih]
      simp [transmittedEntries, hm]
    | some entry =>
      simp only [sendLoop, hm]
      by_cases hc : ((decide (SQS_BATCH_REQUEST_SIZE_LIMIT <
            csize + entry.size) ||
          decide (SQS_MAX_BATCH_SIZE ≤ batch.length)) && !batch.isEmpty) = true
      · rw [if_pos hc, if_pos hc, if_pos hc]
        by_cases hover : SQS_BATCH_REQUEST_SIZE_LIMIT < entry.size
        · rw [if_pos hover]
          cases hr : m.oversizedRef <;>
            simp [ih, transmittedEntries, hm, hover, hr]
        · rw [if_neg hover]
          simp [ih, transmittedEntries, hm, hover]
      · rw [if_neg hc, if_neg hc, if_neg hc]
        by_cases hemp : batch.isEmpty
        · have hbe : batch = [] := List.isEmpty_iff.mp hemp
          subst hbe
          by_cases hover : SQS_BATCH_REQUEST_SIZE_LIMIT < entry.size
          · rw [if_pos hover]
            cases hr : m.oversizedRef <;>
              simp [ih, transmittedEntries, hm, hover, hr]
          · rw [if_neg hover]
            simp [ih, transmittedEntries, hm, hover]
        · have hover : ¬ SQS_BATCH_REQUEST_SIZE_LIMIT < entry.size := by
            intro hov
            apply hc
            have h1 : decide (SQS_BATCH_REQUEST_SIZE_LIMIT <
                csize + entry.size) = true := by
              simp only [decide_eq_true_eq]
              omega
            simp [h1, hemp]
          rw [if_neg hover]
          simp [ih, transmittedEntries, hm, hover]

/-- C5: provided every oversized-reference entry respects the effective
per-message size limit (enforced inside
_create_oversized_message_reference), every batch request SQS.send
issues contains at most SQS_MAX_BATCH_SIZE messages and at most
SQS_BATCH_REQUEST_SIZE_LIMIT total serialized bytes; and the input is
walked in order — the concatenation of all issued batches is exactly the
entries transmitted for each input message, in input order, with a batch
boundary exactly where the loop decides one. -/
theorem claimC5_batch_bounds (msgs : List SqsPrepared)
    (href : ∀ m ∈ msgs, ∀ r, m.oversizedRef = some r →
      r.size ≤ SQS_EFFECTIVE_SIZE_LIMIT) :
    (∀ b ∈ send msgs, b.length ≤ SQS_MAX_BATCH_SIZE ∧
      (b.map (·.size)).sum ≤ SQS_BATCH_REQUEST_SIZE_LIMIT) ∧
    (send msgs).flatten = msgs.flatMap transmittedEntries := by
  constructor
  · exact fun b hb => sendLoop_bounds msgs href [] 0 rfl
      (by simp [SQS_MAX_BATCH_SIZE]) (by simp [SQS_BATCH_REQUEST_SIZE_LIMIT])
      b hb
  · simpa using sendLoop_flatten msgs [] 0

/-- Witness for claimC5_batch_bounds: three messages of 150000, 150000
and 50000 bytes are split into the batches [m1] and [m2, m3]; the second
batch satisfies both bounds and the concatenation of the issued batches
is the input in order. -/
theorem claimC5_batch_bounds_witness :
    (([⟨"m2", 150000⟩, ⟨"m3", 50000⟩] : List SqsEntry).length ≤
        SQS_MAX_BATCH_SIZE ∧
      (([⟨"m2", 150000⟩, ⟨"m3", 50000⟩] : List SqsEntry).map
          (·.size)).sum ≤ SQS_BATCH_REQUEST_SIZE_LIMIT) ∧
    (send [⟨some ⟨"m1", 150000⟩, none⟩, ⟨some ⟨"m2", 150000⟩, none⟩,
        ⟨some ⟨"m3", 50000⟩, none⟩]).flatten =
      [⟨"m1", 150000⟩, ⟨"m2", 150000⟩, ⟨"m3", 50000⟩] := by
  have h := claimC5_batch_bounds
    [⟨some ⟨"m1", 150000⟩, none⟩, ⟨some ⟨"m2", 150000⟩, none⟩,
      ⟨some ⟨"m3", 50000⟩, none⟩] (by simp)
  refine ⟨h.1 [⟨"m2", 150000⟩, ⟨"m3", 50000⟩] ?_, ?_⟩
  · show _ ∈ send _
    simp [send, sendLoop, SQS_BATCH_REQUEST_SIZE_LIMIT, SQS_MAX_BATCH_SIZE]
  · rw [h.2]
    simp [transmittedEntries, SQS_BATCH_REQUEST_SIZE_LIMIT]

/-- Every position save_state hands to state_manager.store is the
position value it was given (read once, at the top of the call). -/
theorem save_state_written (store_fn : String → Except PyError Bool)
    (t i pos last : String) :
    ∀ w ∈ (save_state store_fn t i pos last).written, w = pos := by
  intro w hw
  unfold save_state at hw
  split at hw
  · simp at hw
  · split at hw
    · simp at hw
    · split at hw
      · simp at hw
      · split at hw <;> simpa using hw

/-- Every position a flush writes to the checkpoint store is the
datasource position held when the flush was initiated: stream.send is
given only the message list and cannot move the position, and save_state
reads the position the coordinator holds at that point. -/
theorem flush_to_stream_written {α : Type}
    (send_fn : List α → Except StreamError Unit)
    (store_fn : String → Except PyError Bool)
    (t i : String) (now : Rat) (st : CoordinatorState α) :
    ∀ w ∈ (flush_to_stream send_fn store_fn t i now st).written,
      w = st.dsPosition := by
  intro w hw
  unfold flush_to_stream at hw
  by_cases hbe : st.buffer.isEmpty = true
  · rw [if_pos hbe] at hw
    simp at hw
  · rw [if_neg hbe] at hw
    simp only [] at hw
    rcases hsf : send_fn st.buffer with e | u
    · rw [hsf] at hw
      simp at hw
    · rw [hsf] at hw
      simp only [] at hw
      by_cases hs : (save_state store_fn t i st.dsPosition
          st.last_saved_position).saved = true
      · rw [if_pos hs] at hw
        exact save_state_written store_fn t i st.dsPosition
          st.last_saved_position w (by simpa using hw)
      · rw [if_neg hs] at hw
        exact save_state_written store_fn t i st.dsPosition
          st.last_saved_position w (by simpa using hw)

/-- C1: whatever position token process_next writes to the checkpoint
store during its flush, it is the datasource position at the moment the
flush was initiated — the position after the events of this step were
admitted to the buffer and before stream.send ran.  Events admitted by
later steps can only be covered by the checkpoints of later flushes. -/
theorem claimC1_flush_checkpoints_snapshot_position {α β : Type}
    (policy : BatchSizeAndTimePolicy) (proc : β → α)
    (send_fn : List α → Except StreamError Unit)
    (store_fn : String → Except PyError Bool)
    (t i : String) (now : Rat) (incoming : List (RawEvent β))
    (st : CoordinatorState α) :
    ∀ w ∈ (process_next policy proc send_fn store_fn t i now incoming
        st).written,
      w = positionAfterPull st (incoming.take policy.batch_size.toNat) := by
  intro w hw
  unfold process_next at hw
  by_cases hg : (¬st.is_started = true ∨ st.is_stopped = true)
  · rw [if_pos hg] at hw
    simp at hw
  · rw [if_neg hg] at hw
    try simp only [] at hw
    by_cases hcb : ((incoming.take policy.batch_size.toNat).map
        (fun e => proc e.payload)).isEmpty = true
    · rw [if_pos hcb] at hw
      simp at hw
    · rw [if_neg hcb] at hw
      try simp only [] at hw
      by_cases hf : should_flush policy
          (st.buffer ++ (incoming.take policy.batch_size.toNat).map
            (fun e => proc e.payload)) st.last_flush_time now = true
      · rw [if_pos hf] at hw
        exact flush_to_stream_written send_fn store_fn t i now _ w
          (by simpa using hw)
      · rw [if_neg hf] at hw
        simp at hw

/-- Witness for claimC1_flush_checkpoints_snapshot_position: one event
with token g1 is admitted and flushed; the checkpoint write carries
g1, the position at flush initiation. -/
theorem claimC1_flush_checkpoints_snapshot_position_witness :
    "uuid:1" = positionAfterPull
      (startedState "" 0 : CoordinatorState String)
      (([⟨"uuid:1", "m"⟩] : List (RawEvent String)).take
        (BatchSizeAndTimePolicy.batch_size ⟨1, 1⟩).toNat) :=
  claimC1_flush_checkpoints_snapshot_position ⟨1, 1⟩ id
    (fun _ => .ok ()) (fun _ => .ok true) "mysql" "db1" 5
    [⟨"uuid:1", "m"⟩] (startedState "" 0) "uuid:1" (by
      show "uuid:1" ∈ (process_next _ _ _ _ _ _ _ _ _).written
      simp [process_next, flush_to_stream, save_state, should_flush,
        startedState, positionAfterPull, mkBatchSizeAndTimePolicy])

/-- C3: if stream.send raises during the flush, process_next raises a
processing-kind error, the buffer is exactly the messages held at flush
initiation (nothing lost, order preserved), no checkpoint write was
attempted, and the coordinator is still started and not stopped. -/
theorem claimC3_sink_error_preserves_buffer {α β : Type}
    (policy : BatchSizeAndTimePolicy) (proc : β → α)
    (send_fn : List α → Except StreamError Unit)
    (store_fn : String → Except PyError Bool)
    (t i : String) (now : Rat) (incoming : List (RawEvent β))
    (st : CoordinatorState α) (e : StreamError)
    (hstart : st.is_started = true) (hstop : st.is_stopped = false)
    (hne : (incoming.take policy.batch_size.toNat) ≠ [])
    (hsend : send_fn (st.buffer ++
        (incoming.take policy.batch_size.toNat).map
          (fun ev => proc ev.payload)) = .error e)
    (hflush : should_flush policy (st.buffer ++
        (incoming.take policy.batch_size.toNat).map
          (fun ev => proc ev.payload)) st.last_flush_time now = true) :
    (process_next policy proc send_fn store_fn t i now incoming st).err =
      some ⟨"Error processing events: " ++
        ("Failed to flush messages: " ++ e.msg)⟩ ∧
    (process_next policy proc send_fn store_fn t i now incoming
        st).state.buffer =
      st.buffer ++ (incoming.take policy.batch_size.toNat).map
        (fun ev => proc ev.payload) ∧
    (process_next policy proc send_fn store_fn t i now incoming st).written =
      [] ∧
    (process_next policy proc send_fn store_fn t i now incoming
        st).state.is_started = true ∧
    (process_next policy proc send_fn store_fn t i now incoming
        st).state.is_stopped = false := by
  have hcbnil : ((incoming.take policy.batch_size.toNat).map
      (fun ev => proc ev.payload)) ≠ [] := by
    simpa using hne
  have hcb : ((incoming.take policy.batch_size.toNat).map
      (fun ev => proc ev.payload)).isEmpty = false := by
    cases h : ((incoming.take policy.batch_size.toNat).map
        (fun ev => proc ev.payload)).isEmpty
    · rfl
    · exact absurd (List.isEmpty_iff.mp h) hcbnil
  have hbufne : (st.buffer ++
      (incoming.take policy.batch_size.toNat).map
        (fun ev => proc ev.payload)).isEmpty = false := by
    cases h : (st.buffer ++
        (incoming.take policy.batch_size.toNat).map
          (fun ev => proc ev.payload)).isEmpty
    · rfl
    · exact absurd (List.append_eq_nil.mp (List.isEmpty_iff.mp h)).2 hcbnil
  simp only [process_next, hstart, hstop, Bool.not_true, false_or,
    Bool.false_eq_true, not_false_eq_true, if_true, if_false, ite_false,
    ite_true, hcb, hflush, flush_to_stream, hbufne, hsend]
  simp

/-- Witness for claimC3_sink_error_preserves_buffer: one event admitted,
the sink raises, and the buffer still holds the message. -/
theorem claimC3_sink_error_preserves_buffer_witness :
    (process_next ⟨1, 1⟩ (id : String → String)
        (fun _ => .error ⟨"boom"⟩) (fun _ => .ok true) "mysql" "db1" 5
        [⟨"uuid:1", "m"⟩] (startedState "" 0)).state.buffer = ["m"] := by
  have h := claimC3_sink_error_preserves_buffer ⟨1, 1⟩ (id : String → String)
    (fun _ => .error ⟨"boom"⟩) (fun _ => .ok true) "mysql" "db1" 5
    [⟨"uuid:1", "m"⟩] (startedState "" 0) ⟨"boom"⟩ rfl rfl (by simp)
    rfl (by rfl)
  simpa using h.2.1

/-- C9: save_state remembers the last position it wrote; when the store
succeeds on the first save, a second save carrying the identical token
is skipped yet reported as saved, so the two calls issue exactly one
write to the checkpoint store. -/
theorem claimC9_checkpoint_elision (store_fn : String → Except PyError Bool)
    (t i p last0 : String) (hp : p ≠ "") (ht : t ≠ "") (hi : i ≠ "")
    (hl : last0 ≠ p) (hs : store_fn p = .ok true) :
    (save_state store_fn t i p last0).saved = true ∧
    (save_state store_fn t i p
        (save_state store_fn t i p last0).last_saved_position).saved = true ∧
    (save_state store_fn t i p last0).written ++
      (save_state store_fn t i p
        (save_state store_fn t i p last0).last_saved_position).written =
      [p] := by
  have h1 : save_state store_fn t i p last0 = ⟨p, true, [p]⟩ := by
    unfold save_state
    rw [if_neg hp, if_neg (by simp [ht, hi]), if_neg hl, hs]
  have h2 : save_state store_fn t i p p = ⟨p, true, []⟩ := by
    unfold save_state
    rw [if_neg hp, if_neg (by simp [ht, hi]), if_pos rfl]
  rw [h1]
  simp [h2]

/-- Witness for claimC9_checkpoint_elision: two saves of uuid:7 from a
fresh manager issue exactly one store write. -/
theorem claimC9_checkpoint_elision_witness :
    (save_state (fun _ => .ok true) "mysql" "db1" "uuid:7" "").written ++
      (save_state (fun _ => .ok true) "mysql" "db1" "uuid:7"
        (save_state (fun _ => .ok true) "mysql" "db1" "uuid:7"
          "").last_saved_position).written = ["uuid:7"] :=
  (claimC9_checkpoint_elision (fun _ => .ok true) "mysql" "db1" "uuid:7" ""
    (by decide) (by decide) (by decide) (by decide) rfl).2.2

/-- With the DynamoDB store receiving the raw position string, save_state
never reports a save and never learns a last-saved position: the store
call returns False on every string token. -/
theorem save_state_dynamodb_string (putOk : Bool) (t i pos : String) :
    (save_state (fun p => Dynamodb.store putOk (.str p)) t i pos
        "").saved = false ∧
    (save_state (fun p => Dynamodb.store putOk (.str p)) t i pos
        "").last_saved_position = "" := by
  unfold save_state
  by_cases hp : pos = ""
  · rw [if_pos hp]
    exact ⟨rfl, rfl⟩
  · rw [if_neg hp]
    by_cases hti : t = "" ∨ i = ""
    · rw [if_pos hti]
      exact ⟨rfl, rfl⟩
    · rw [if_neg hti, if_neg (fun h => hp h.symm)]
      exact ⟨rfl, rfl⟩

/-- A flush backed by the DynamoDB store and a string position leaves
the coordinator state untouched whenever no position was ever saved:
the buffer is kept because save_state reports failure. -/
theorem flush_to_stream_dyn_state {α : Type}
    (send_fn : List α → Except StreamError Unit) (putOk : Bool)
    (t i : String) (now : Rat) (st : CoordinatorState α)
    (hl : st.last_saved_position = "") :
    (flush_to_stream send_fn (fun p => Dynamodb.store putOk (.str p))
        t i now st).state = st := by
  rcases st with ⟨pos, buf, lf, istart, istop, lsp⟩
  simp only at hl
  subst hl
  unfold flush_to_stream
  by_cases hbe : buf.isEmpty = true
  · rw [if_pos hbe]
  · rw [if_neg hbe]
    try simp only []
    rcases hsf : send_fn buf with e | u
    · rfl
    · try simp only []
      have hsv := save_state_dynamodb_string putOk t i pos
      rw [if_neg (by rw [hsv.1]; simp)]
      simp [hsv.2]

/-- One process_next step against the DynamoDB-backed store: the new
state is the old one with the position advanced past the pulled events
and the processed events appended to the buffer — never cleared. -/
theorem process_next_dyn_state {α β : Type} (policy : BatchSizeAndTimePolicy)
    (proc : β → α) (send_fn : List α → Except StreamError Unit) (putOk : Bool)
    (t i : String) (now : Rat) (incoming : List (RawEvent β))
    (st : CoordinatorState α) (hl : st.last_saved_position = "")
    (hstart : st.is_started = true) (hstop : st.is_stopped = false) :
    (process_next policy proc send_fn (fun p => Dynamodb.store putOk (.str p))
        t i now incoming st).state =
      { st with
          dsPosition := positionAfterPull st
            (incoming.take policy.batch_size.toNat)
          buffer := st.buffer ++ (incoming.take policy.batch_size.toNat).map
            (fun e => proc e.payload) } := by
  have hg : ¬(¬st.is_started = true ∨ st.is_stopped = true) := by
    simp [hstart, hstop]
  unfold process_next
  rw [if_neg hg]
  try simp only []
  by_cases hcb : ((incoming.take policy.batch_size.toNat).map
      (fun e => proc e.payload)).isEmpty = true
  · rw [if_pos hcb]
    have hpe : (incoming.take policy.batch_size.toNat) = [] := by
      have h := List.isEmpty_iff.mp hcb
      simpa using h
    rcases st with ⟨pos, buf, lf, istart, istop, lsp⟩
    simp [hpe, positionAfterPull]
  · rw [if_neg hcb]
    try simp only []
    by_cases hf : should_flush policy
        (st.buffer ++ (incoming.take policy.batch_size.toNat).map
          (fun e => proc e.payload)) st.last_flush_time now = true
    · rw [if_pos hf]
      try simp only []
      exact flush_to_stream_dyn_state send_fn putOk t i now _ (by simpa using hl)
    · rw [if_neg hf]

/-- Over any script of process_next calls against the DynamoDB-backed
store, a coordinator that starts with no saved position keeps every
admitted message: the buffer only ever grows, in admission order, and no
position is ever recorded as saved. -/
theorem runCoordinator_dyn {α β : Type} (policy : BatchSizeAndTimePolicy)
    (proc : β → α) (send_fn : List α → Except StreamError Unit) (putOk : Bool)
    (t i : String) :
    ∀ (script : List (Rat × List (RawEvent β))) (st : CoordinatorState α),
      st.last_saved_position = "" → st.is_started = true →
      st.is_stopped = false →
      (runCoordinator policy proc send_fn
          (fun p => Dynamodb.store putOk (.str p)) t i script st).buffer =
        st.buffer ++ script.flatMap
          (fun step => (step.2.take policy.batch_size.toNat).map
            (fun e => proc e.payload)) ∧
      (runCoordinator policy proc send_fn
          (fun p => Dynamodb.store putOk (.str p)) t i script
          st).last_saved_position = "" := by
  intro script
  induction script with
  | nil =>
    intro st h1 h2 h3
    simp [runCoordinator, h1]
  | cons s rest ih =>
    intro st h1 h2 h3
    rcases s with ⟨now, incoming⟩
    have hstep := process_next_dyn_state policy proc send_fn putOk t i now
      incoming st h1 h2 h3
    have h1' : (process_next policy proc send_fn
        (fun p => Dynamodb.store putOk (.str p)) t i now incoming
        st).state.last_saved_position = "" := by
      rw [hstep]
      exact h1
    have h2' : (process_next policy proc send_fn
        (fun p => Dynamodb.store putOk (.str p)) t i now incoming
        st).state.is_started = true := by
      rw [hstep]
      exact h2
    have h3' : (process_next policy proc send_fn
        (fun p => Dynamodb.store putOk (.str p)) t i now incoming
        st).state.is_stopped = false := by
      rw [hstep]
      exact h3
    obtain ⟨ihb, ihl⟩ := ih _ h1' h2' h3'
    constructor
    · show (runCoordinator policy proc send_fn
          (fun p => Dynamodb.store putOk (.str p)) t i rest _).buffer = _
      rw [ihb, hstep]
      simp [List.append_assoc]
    · exact ihl

/-- C6: the DynamoDB store applied to a string-valued position token —
the only shape the MySQL datasource ever produces and save_state passes
through — raises no exception and returns False, because iterating the
string as a key-value mapping fails inside the try block; consequently
no checkpoint write ever succeeds and the coordinator never clears its
buffer after a flush the sink accepted. -/
theorem claimC6_string_token_never_checkpointed {α β : Type}
    (policy : BatchSizeAndTimePolicy) (proc : β → α)
    (send_fn : List α → Except StreamError Unit) (putOk : Bool)
    (t i : String) :
    (∀ (ok : Bool) (s : String), Dynamodb.store ok (.str s) = .ok false) ∧
    ∀ (script : List (Rat × List (RawEvent β))) (st : CoordinatorState α),
      st.last_saved_position = "" → st.is_started = true →
      st.is_stopped = false →
      (runCoordinator policy proc send_fn
          (fun p => Dynamodb.store putOk (.str p)) t i script st).buffer =
        st.buffer ++ script.flatMap
          (fun step => (step.2.take policy.batch_size.toNat).map
            (fun e => proc e.payload)) ∧
      (runCoordinator policy proc send_fn
          (fun p => Dynamodb.store putOk (.str p)) t i script
          st).last_saved_position = "" :=
  ⟨fun _ _ => rfl, runCoordinator_dyn policy proc send_fn putOk t i⟩

/-- Witness for claimC6_string_token_never_checkpointed: one message is
admitted and flushed with the sink accepting, yet the buffer still holds
it afterwards because the DynamoDB write of the string token failed. -/
theorem claimC6_string_token_never_checkpointed_witness :
    (runCoordinator ⟨1, 1⟩ (id : String → String) (fun _ => .ok ())
        (fun p => Dynamodb.store true (.str p)) "mysql" "db1"
        [(5, [⟨"uuid:1", "m"⟩])] (startedState "" 0)).buffer = ["m"] := by
  have h := (claimC6_string_token_never_checkpointed ⟨1, 1⟩
    (id : String → String) (fun _ => .ok ()) true "mysql" "db1").2
    [(5, [⟨"uuid:1", "m"⟩])] (startedState "" 0) rfl rfl rfl
  simpa [startedState] using h.1

end StreamCdc
